import Mathlib

/-!
Shallow embedding of the blocks search space of `zeus/modules/blocks/blocks.py`
and the quantization backend shim of `zeus/modules/operators/quant/__init__.py`.

Layers created through the external framework wrapper `ops` (Conv2d,
BatchNorm2d, Relu, MaxPool2d) are embedded as records of the constructor
arguments with which blocks.py creates them; their tensor semantics are owned
by the external framework and are out of scope.  Python ints are embedded as
Nat (channel counts, kernel sizes and strides are nonnegative in every use in
this file).  A Python constructor can in principle raise, so every `__init__`
is embedded as a function into `Except PyExn _`; none of the constructors in
blocks.py contains a raise statement, so no path of any embedded constructor
produces `Except.error`.
-/

/-- Exceptions a Python constructor could raise.  No code path in the embedded
fragment raises one. -/
inductive PyExn where
  | err
  deriving DecidableEq, Repr

/-- Arguments with which blocks.py creates an `ops.Conv2d` layer.  The default
values `stride=1`, `padding=0`, `groups=1`, `bias=True` of the framework
convolution constructor are written out explicitly at every use site. -/
structure Conv2d where
  in_channels : Nat
  out_channels : Nat
  kernel_size : Nat
  stride : Nat
  padding : Nat
  groups : Nat
  bias : Bool
  deriving DecidableEq, Repr

/-- Arguments with which blocks.py creates an `ops.BatchNorm2d` layer. -/
structure BatchNorm2d where
  num_features : Nat
  deriving DecidableEq, Repr

/-- Arguments with which blocks.py creates an `ops.Relu` layer. -/
structure Relu where
  inplace : Bool
  deriving DecidableEq, Repr

/-- Arguments with which blocks.py creates an `ops.MaxPool2d` layer. -/
structure MaxPool2d where
  kernel_size : Nat
  stride : Nat
  padding : Nat
  deriving DecidableEq, Repr

/-- Modelled from the spec: `Add` from `zeus.modules.connections` (not under
src/) combines two parallel branches whose outputs are summed elementwise; it
is embedded as the pair of its two branches. -/
structure AddConn (A : Type) (B : Type) where
  a : A
  b : B
  deriving DecidableEq, Repr

/-- Layers of the `ShortCut` block.  When the guard in its constructor is
false, no layer at all is created (identity shortcut): both fields are
`none`. -/
structure ShortCut where
  conv1 : Option Conv2d
  batch : Option BatchNorm2d
  deriving DecidableEq, Repr

/-- Embedding of `ShortCut.__init__(self, inchannel, outchannel, expansion,
stride=1)` from blocks.py. -/
def ShortCut.init (inchannel outchannel expansion stride : Nat) :
    Except PyExn ShortCut :=
  if stride ≠ 1 ∨ inchannel ≠ outchannel * expansion then
    Except.ok
      { conv1 := some { in_channels := inchannel,
                        out_channels := outchannel * expansion,
                        kernel_size := 1, stride := stride, padding := 0,
                        groups := 1, bias := false },
        batch := some { num_features := outchannel * expansion } }
  else
    Except.ok { conv1 := none, batch := none }

/-- Number of channels a `ShortCut` outputs, given the channel count of its
input tensor: the projection's out_channels when the projection exists, the
input's own channel count when the shortcut is the identity. -/
def ShortCut.out_channels (input_channels : Nat) (s : ShortCut) : Nat :=
  match s.conv1 with
  | some c => c.out_channels
  | none => input_channels

/-- Layers of the `BottleConv` block, in constructor order. -/
structure BottleConv where
  conv1 : Conv2d
  batch1 : BatchNorm2d
  conv2 : Conv2d
  batch2 : BatchNorm2d
  conv3 : Conv2d
  batch3 : BatchNorm2d
  relu : Relu
  deriving DecidableEq, Repr

/-- Embedding of `BottleConv.__init__` from blocks.py.  The source rebinds
`outchannel = int(outchannel * (base_width / 64.)) * groups` before creating
any layer; division by the float literal 64. is exact in binary floating
point, so for all products below 2^53 the rebound value equals
`outchannel * base_width / 64 * groups` in Nat floor arithmetic, which is how
it is embedded here. -/
def BottleConv.init (inchannel outchannel expansion groups base_width stride : Nat) :
    Except PyExn BottleConv :=
  let outchannel := outchannel * base_width / 64 * groups
  Except.ok
    { conv1 := { in_channels := inchannel, out_channels := outchannel,
                 kernel_size := 1, stride := 1, padding := 0, groups := 1,
                 bias := false },
      batch1 := { num_features := outchannel },
      conv2 := { in_channels := outchannel, out_channels := outchannel,
                 kernel_size := 3, stride := stride, padding := 1,
                 groups := groups, bias := false },
      batch2 := { num_features := outchannel },
      conv3 := { in_channels := outchannel,
                 out_channels := outchannel * expansion,
                 kernel_size := 1, stride := 1, padding := 0, groups := 1,
                 bias := false },
      batch3 := { num_features := outchannel * expansion },
      relu := { inplace := false } }

/-- Layers of the `BasicConv` block, in constructor order. -/
structure BasicConv where
  conv : Conv2d
  batch : BatchNorm2d
  relu : Relu
  conv2 : Conv2d
  batch2 : BatchNorm2d
  deriving DecidableEq, Repr

/-- Embedding of `BasicConv.__init__(self, inchannel, outchannel, groups=1,
base_width=64, stride=1)` from blocks.py.  The `base_width` parameter is
accepted and unused, exactly as in the source. -/
def BasicConv.init (inchannel outchannel groups _base_width stride : Nat) :
    Except PyExn BasicConv :=
  Except.ok
    { conv := { in_channels := inchannel, out_channels := outchannel,
                kernel_size := 3, stride := stride, padding := 1,
                groups := groups, bias := false },
      batch := { num_features := outchannel },
      relu := { inplace := true },
      conv2 := { in_channels := outchannel, out_channels := outchannel,
                 kernel_size := 3, stride := 1, padding := 1,
                 groups := groups, bias := false },
      batch2 := { num_features := outchannel } }

/-- Layers of the `SmallInputInitialBlock` block; it creates no pooling
layer. -/
structure SmallInputInitialBlock where
  conv : Conv2d
  bn : BatchNorm2d
  relu : Relu
  deriving DecidableEq, Repr

/-- Embedding of `SmallInputInitialBlock.__init__(self, init_plane)` from
blocks.py. -/
def SmallInputInitialBlock.init (init_plane : Nat) :
    Except PyExn SmallInputInitialBlock :=
  Except.ok
    { conv := { in_channels := 3, out_channels := init_plane,
                kernel_size := 3, stride := 1, padding := 1, groups := 1,
                bias := false },
      bn := { num_features := init_plane },
      relu := { inplace := false } }

/-- Layers of the `InitialBlock` block. -/
structure InitialBlock where
  conv : Conv2d
  batch : BatchNorm2d
  maxpool2d : MaxPool2d
  deriving DecidableEq, Repr

/-- Embedding of `InitialBlock.__init__(self, init_plane)` from blocks.py. -/
def InitialBlock.init (init_plane : Nat) : Except PyExn InitialBlock :=
  Except.ok
    { conv := { in_channels := 3, out_channels := init_plane,
                kernel_size := 7, stride := 2, padding := 3, groups := 1,
                bias := false },
      batch := { num_features := init_plane },
      maxpool2d := { kernel_size := 3, stride := 2, padding := 1 } }

/-- Attributes of the `BasicBlock` block: an `Add` of the `BasicConv` path and
the `ShortCut` path, followed by a `Relu`. -/
structure BasicBlock where
  block : AddConn BasicConv ShortCut
  relu : Relu
  deriving DecidableEq, Repr

/-- Class attribute `BasicBlock.expansion = 1` from blocks.py. -/
def BasicBlock.expansion : Nat := 1

/-- Embedding of `BasicBlock.__init__(self, inchannel, outchannel, groups=1,
base_width=64, stride=1)` from blocks.py. -/
def BasicBlock.init (inchannel outchannel groups base_width stride : Nat) :
    Except PyExn BasicBlock := do
  let base_conv ← BasicConv.init inchannel outchannel groups base_width stride
  let shortcut ← ShortCut.init inchannel outchannel BasicBlock.expansion stride
  pure { block := { a := base_conv, b := shortcut },
         relu := { inplace := false } }

/-- Attributes of the `BottleneckBlock` block: an `Add` of the `BottleConv`
path and the `ShortCut` path, followed by a `Relu`. -/
structure BottleneckBlock where
  block : AddConn BottleConv ShortCut
  relu : Relu
  deriving DecidableEq, Repr

/-- Class attribute `BottleneckBlock.expansion = 4` from blocks.py. -/
def BottleneckBlock.expansion : Nat := 4

/-- Embedding of `BottleneckBlock.__init__(self, inchannel, outchannel,
groups=1, base_width=64, stride=1)` from blocks.py. -/
def BottleneckBlock.init (inchannel outchannel groups base_width stride : Nat) :
    Except PyExn BottleneckBlock := do
  let bottle_conv ←
    BottleConv.init inchannel outchannel BottleneckBlock.expansion groups
      base_width stride
  let shortcut ← ShortCut.init inchannel outchannel BottleneckBlock.expansion stride
  pure { block := { a := bottle_conv, b := shortcut },
         relu := { inplace := false } }

/-- Output channel count of the `BottleConv` path of a `BottleneckBlock`: the
out_channels of the path's final convolution. -/
def BottleneckBlock.bottle_out_channels (bb : BottleneckBlock) : Nat :=
  bb.block.a.conv3.out_channels

/-- Output channel count of the `ShortCut` path of a `BottleneckBlock`, given
the channel count of the block's input tensor. -/
def BottleneckBlock.short_out_channels (input_channels : Nat)
    (bb : BottleneckBlock) : Nat :=
  ShortCut.out_channels input_channels bb.block.b

/-- Layers of the `PruneBasicConv` block, in constructor order. -/
structure PruneBasicConv where
  conv1 : Conv2d
  bn1 : BatchNorm2d
  relu : Relu
  conv2 : Conv2d
  bn2 : BatchNorm2d
  relu2 : Relu
  deriving DecidableEq, Repr

/-- Embedding of `PruneBasicConv.__init__(self, in_planes, planes,
inner_plane, stride=1)` from blocks.py. -/
def PruneBasicConv.init (in_planes planes inner_plane stride : Nat) :
    Except PyExn PruneBasicConv :=
  Except.ok
    { conv1 := { in_channels := in_planes, out_channels := inner_plane,
                 kernel_size := 3, stride := stride, padding := 1,
                 groups := 1, bias := false },
      bn1 := { num_features := inner_plane },
      relu := { inplace := false },
      conv2 := { in_channels := inner_plane, out_channels := planes,
                 kernel_size := 3, stride := 1, padding := 1, groups := 1,
                 bias := false },
      bn2 := { num_features := planes },
      relu2 := { inplace := false } }

/-- Attributes of the `PruneBasicBlock` block: an `Add` of the
`PruneBasicConv` path and the `ShortCut` path, followed by a `Relu`. -/
structure PruneBasicBlock where
  block : AddConn PruneBasicConv ShortCut
  relu3 : Relu
  deriving DecidableEq, Repr

/-- Class attribute `PruneBasicBlock.expansion = 1` from blocks.py. -/
def PruneBasicBlock.expansion : Nat := 1

/-- Embedding of `PruneBasicBlock.__init__(self, inchannel, outchannel,
innerchannel, stride=1)` from blocks.py. -/
def PruneBasicBlock.init (inchannel outchannel innerchannel stride : Nat) :
    Except PyExn PruneBasicBlock := do
  let conv_block ← PruneBasicConv.init inchannel outchannel innerchannel stride
  let shortcut ← ShortCut.init inchannel outchannel PruneBasicBlock.expansion stride
  pure { block := { a := conv_block, b := shortcut },
         relu3 := { inplace := false } }

/-- Names of the block classes defined in blocks.py, as an inductive so the
registry needs no string literals. -/
inductive BlockClassName where
  | ShortCut
  | BottleConv
  | BasicConv
  | SmallInputInitialBlock
  | InitialBlock
  | BasicBlock
  | BottleneckBlock
  | PruneBasicBlock
  | PruneBasicConv
  deriving DecidableEq, Repr

/-- Modelled from the spec: `ClassType` from `zeus.common` (not under src/)
enumerates registry categories; blocks.py uses only the search-space
category, which is the only one modelled. -/
inductive ClassType where
  | SEARCH_SPACE
  deriving DecidableEq, Repr

/-- Registry state of the class factory: the list of (class type, class name)
registrations performed so far. -/
abbrev Registry : Type := List (ClassType × BlockClassName)

/-- Modelled from the spec: `ClassFactory.register(class_type)` from
`zeus.common` (not under src/) records the decorated class in the factory
registry under the given class type. -/
def ClassFactory.register (class_type : ClassType) (name : BlockClassName)
    (reg : Registry) : Registry :=
  (class_type, name) :: reg

/-- Modelled from the spec: a class name is resolvable through the factory
when it was registered under the given class type. -/
def ClassFactory.is_registered (reg : Registry) (class_type : ClassType)
    (name : BlockClassName) : Prop :=
  (class_type, name) ∈ reg

instance (reg : Registry) (t : ClassType) (n : BlockClassName) :
    Decidable (ClassFactory.is_registered reg t n) :=
  inferInstanceAs (Decidable ((t, n) ∈ reg))

/-- Registry produced by importing blocks.py: the nine class decorators run
in source order, each registering its class under
`ClassType.SEARCH_SPACE`. -/
def blocks_import_registry : Registry :=
  ClassFactory.register ClassType.SEARCH_SPACE BlockClassName.PruneBasicConv
    (ClassFactory.register ClassType.SEARCH_SPACE BlockClassName.PruneBasicBlock
      (ClassFactory.register ClassType.SEARCH_SPACE BlockClassName.BottleneckBlock
        (ClassFactory.register ClassType.SEARCH_SPACE BlockClassName.BasicBlock
          (ClassFactory.register ClassType.SEARCH_SPACE BlockClassName.InitialBlock
            (ClassFactory.register ClassType.SEARCH_SPACE BlockClassName.SmallInputInitialBlock
              (ClassFactory.register ClassType.SEARCH_SPACE BlockClassName.BasicConv
                (ClassFactory.register ClassType.SEARCH_SPACE BlockClassName.BottleConv
                  (ClassFactory.register ClassType.SEARCH_SPACE BlockClassName.ShortCut
                    []))))))))

/-- The two quantization operator sets the quant package can import. -/
inductive QuantOps where
  | tensorflow_quant
  | pytroch_quant
  deriving DecidableEq, Repr

/-- Embedding of `zeus/modules/operators/quant/__init__.py`: the module-level
code imports the TensorFlow operators when `is_tf_backend()` is true and the
PyTorch operators otherwise. -/
def quant_module_import (is_tf_backend : Bool) : QuantOps :=
  if is_tf_backend then QuantOps.tensorflow_quant else QuantOps.pytroch_quant

/-- Whether a constructor run completed without raising. -/
def pyOk {A : Type} (e : Except PyExn A) : Bool :=
  match e with
  | Except.ok _ => true
  | Except.error _ => false

/-- Channel consistency of a `ShortCut`: the batch norm, when present,
normalizes exactly the channels produced by the projection convolution. -/
def ShortCut.bn_matches_conv (s : ShortCut) : Bool :=
  match s.conv1, s.batch with
  | some c, some b => b.num_features == c.out_channels
  | none, none => true
  | _, _ => false

/-- Channel consistency of a `BottleConv`: each batch norm normalizes the
out_channels of the convolution that precedes it. -/
def BottleConv.bn_matches_conv (m : BottleConv) : Bool :=
  m.batch1.num_features == m.conv1.out_channels &&
  m.batch2.num_features == m.conv2.out_channels &&
  m.batch3.num_features == m.conv3.out_channels

/-- Channel consistency of a `BasicConv`. -/
def BasicConv.bn_matches_conv (m : BasicConv) : Bool :=
  m.batch.num_features == m.conv.out_channels &&
  m.batch2.num_features == m.conv2.out_channels

/-- Channel consistency of a `SmallInputInitialBlock`. -/
def SmallInputInitialBlock.bn_matches_conv (m : SmallInputInitialBlock) : Bool :=
  m.bn.num_features == m.conv.out_channels

/-- Channel consistency of an `InitialBlock`. -/
def InitialBlock.bn_matches_conv (m : InitialBlock) : Bool :=
  m.batch.num_features == m.conv.out_channels

/-- Channel consistency of a `PruneBasicConv`. -/
def PruneBasicConv.bn_matches_conv (m : PruneBasicConv) : Bool :=
  m.bn1.num_features == m.conv1.out_channels &&
  m.bn2.num_features == m.conv2.out_channels

/-- Helper: a `ShortCut` always outputs `outchannel * expansion` channels,
whether it is a projection or (by the guard of its constructor) the
identity. -/
theorem shortcut_out_channels_eq (ic oc e st : Nat) :
    (ShortCut.init ic oc e st).map (ShortCut.out_channels ic) =
      Except.ok (oc * e) := by
  unfold ShortCut.init
  split
  · rfl
  · rename_i h
    push_neg at h
    simp [Except.map, ShortCut.out_channels, h.2]

/-- Helper: the `ShortCut` constructor always succeeds, and the resulting
shortcut outputs `outchannel * expansion` channels whether it is a projection
or (by the constructor's guard) the identity. -/
theorem shortcut_init_ok (ic oc e st : Nat) :
    ∃ sc, ShortCut.init ic oc e st = Except.ok sc ∧
      ShortCut.out_channels ic sc = oc * e := by
  unfold ShortCut.init
  split
  · exact ⟨_, rfl, rfl⟩
  · rename_i h
    push_neg at h
    exact ⟨_, rfl, by simp only [ShortCut.out_channels]; exact h.2⟩

/-- Claim C1: importing the blocks module registers every one of the nine
block classes defined in it into the ClassFactory under
ClassType.SEARCH_SPACE, so each name is resolvable through the factory after
the import. -/
theorem C1_blocks_registration :
    ClassFactory.is_registered blocks_import_registry ClassType.SEARCH_SPACE
      BlockClassName.ShortCut ∧
    ClassFactory.is_registered blocks_import_registry ClassType.SEARCH_SPACE
      BlockClassName.BottleConv ∧
    ClassFactory.is_registered blocks_import_registry ClassType.SEARCH_SPACE
      BlockClassName.BasicConv ∧
    ClassFactory.is_registered blocks_import_registry ClassType.SEARCH_SPACE
      BlockClassName.SmallInputInitialBlock ∧
    ClassFactory.is_registered blocks_import_registry ClassType.SEARCH_SPACE
      BlockClassName.InitialBlock ∧
    ClassFactory.is_registered blocks_import_registry ClassType.SEARCH_SPACE
      BlockClassName.BasicBlock ∧
    ClassFactory.is_registered blocks_import_registry ClassType.SEARCH_SPACE
      BlockClassName.BottleneckBlock ∧
    ClassFactory.is_registered blocks_import_registry ClassType.SEARCH_SPACE
      BlockClassName.PruneBasicBlock ∧
    ClassFactory.is_registered blocks_import_registry ClassType.SEARCH_SPACE
      BlockClassName.PruneBasicConv := by
  decide

/-- Claim C2: the quant package import selects the TensorFlow operator set
exactly when is_tf_backend() is true and the PyTorch operator set in every
other case, and never both at once. -/
theorem C2_quant_backend_selection :
    ∀ is_tf : Bool,
      (quant_module_import is_tf = QuantOps.tensorflow_quant ↔ is_tf = true) ∧
      (quant_module_import is_tf = QuantOps.pytroch_quant ↔ is_tf = false) ∧
      ¬(quant_module_import is_tf = QuantOps.tensorflow_quant ∧
        quant_module_import is_tf = QuantOps.pytroch_quant) := by
  decide

/-- Helper: sequencing a successful constructor step just continues with its
result. -/
theorem pyBind_ok {A B : Type} (a : A) (f : A → Except PyExn B) :
    (Except.ok a >>= f) = f a := rfl

/-- Helper: the pure return of a constructor is a successful result. -/
theorem pyPure_eq {A : Type} (a : A) : (pure a : Except PyExn A) = Except.ok a := rfl

/-- Helper: mapping a projection over a successful constructor result applies
it to the constructed module. -/
theorem pyMap_ok {A B : Type} (f : A → B) (a : A) :
    Except.map f (Except.ok a : Except PyExn A) = Except.ok (f a) := rfl

/-- Claim C3, counterexample: at BottleneckBlock(64, 64, groups=2,
base_width=64, stride=1) the BottleConv path ends with 512 output channels
while the ShortCut path outputs outchannel * 4 = 256, so the two Add branches
do not agree for all values of groups and base_width. -/
theorem C3_counterexample :
    (BottleneckBlock.init 64 64 2 64 1).map BottleneckBlock.bottle_out_channels =
      Except.ok 512 ∧
    (BottleneckBlock.init 64 64 2 64 1).map (BottleneckBlock.short_out_channels 64) =
      Except.ok 256 ∧
    (512 : Nat) ≠ 64 * 4 := by
  refine ⟨rfl, rfl, by decide⟩

/-- Claim C3, amended: the ShortCut path of a BottleneckBlock always outputs
outchannel * 4 channels, but the BottleConv path's final conv outputs
outchannel * 4 exactly when the rebound width outchannel * base_width / 64 *
groups equals outchannel; in particular the two branches agree at the
defaults groups = 1, base_width = 64, not for all groups and base_width. -/
theorem C3_bottleneck_branch_channels (ic oc g bw st : Nat) :
    (BottleneckBlock.init ic oc g bw st).map
        (BottleneckBlock.short_out_channels ic) = Except.ok (oc * 4) ∧
    ((BottleneckBlock.init ic oc g bw st).map
        BottleneckBlock.bottle_out_channels = Except.ok (oc * 4) ↔
      oc * bw / 64 * g = oc) := by
  obtain ⟨sc, hsc, hout⟩ := shortcut_init_ok ic oc 4 st
  constructor
  · simp only [BottleneckBlock.init, BottleneckBlock.expansion, BottleConv.init,
      hsc, pyBind_ok, pyPure_eq, pyMap_ok]
    simpa [BottleneckBlock.short_out_channels] using hout
  · simp only [BottleneckBlock.init, BottleneckBlock.expansion, BottleConv.init,
      hsc, pyBind_ok, pyPure_eq, pyMap_ok, Except.ok.injEq,
      BottleneckBlock.bottle_out_channels]
    omega

/-- Claim C4: BasicBlock always assembles exactly a BasicConv path and a
ShortCut path built with expansion 1, combines them with Add into its block
attribute, follows the sum with a Relu, and both Add branches produce
outchannel output channels. -/
theorem C4_basic_block_assembly (ic oc g bw st : Nat) :
    ∃ base_conv sc,
      BasicConv.init ic oc g bw st = Except.ok base_conv ∧
      ShortCut.init ic oc 1 st = Except.ok sc ∧
      BasicBlock.init ic oc g bw st =
        Except.ok { block := { a := base_conv, b := sc },
                    relu := { inplace := false } } ∧
      base_conv.conv2.out_channels = oc ∧
      ShortCut.out_channels ic sc = oc := by
  obtain ⟨sc, hsc, hout⟩ := shortcut_init_ok ic oc 1 st
  refine ⟨_, sc, rfl, hsc, ?_, rfl, by simpa using hout⟩
  simp only [BasicBlock.init, BasicBlock.expansion, BasicConv.init, hsc]
  rfl

/-- Claim C5: a ShortCut contains its 1x1 projection conv (inchannel to
outchannel * expansion, with the given stride) and matching batch norm if and
only if stride is not 1 or inchannel differs from outchannel * expansion;
when stride is 1 and inchannel equals outchannel * expansion it creates no
layers at all. -/
theorem C5_shortcut_projection_iff (ic oc e st : Nat) :
    ((ShortCut.init ic oc e st).map ShortCut.conv1 =
        Except.ok (some { in_channels := ic, out_channels := oc * e,
                          kernel_size := 1, stride := st, padding := 0,
                          groups := 1, bias := false }) ∧
      (ShortCut.init ic oc e st).map ShortCut.batch =
        Except.ok (some { num_features := oc * e })
      ↔ (st ≠ 1 ∨ ic ≠ oc * e)) ∧
    ((ShortCut.init ic oc e st).map ShortCut.conv1 = Except.ok none ∧
      (ShortCut.init ic oc e st).map ShortCut.batch = Except.ok none
      ↔ (st = 1 ∧ ic = oc * e)) := by
  unfold ShortCut.init
  split
  · rename_i h
    constructor
    · simp only [pyMap_ok]
      simpa using h
    · simp only [pyMap_ok]
      simp only [Except.ok.injEq]
      constructor
      · intro hc
        exact absurd hc.1 (by simp)
      · intro hc
        rcases h with h | h
        · exact absurd hc.1 h
        · exact absurd hc.2 h
  · rename_i h
    push_neg at h
    constructor
    · simp only [pyMap_ok]
      simp only [Except.ok.injEq]
      constructor
      · intro hc
        exact absurd hc.1 (by simp)
      · intro hc
        rcases hc with hc | hc
        · exact absurd h.1 hc
        · exact absurd h.2 hc
    · simp only [pyMap_ok]
      simp [h.1, h.2]

/-- Claim C6: PruneBasicBlock combines a PruneBasicConv path with a ShortCut
path built with expansion 1 via Add; the conv path maps inchannel to
innerchannel with the given stride and innerchannel to outchannel with stride
1, and both branches output outchannel channels whatever innerchannel is. -/
theorem C6_prune_basic_block_assembly (ic oc inner st : Nat) :
    ∃ conv_block sc,
      PruneBasicConv.init ic oc inner st = Except.ok conv_block ∧
      ShortCut.init ic oc 1 st = Except.ok sc ∧
      PruneBasicBlock.init ic oc inner st =
        Except.ok { block := { a := conv_block, b := sc },
                    relu3 := { inplace := false } } ∧
      conv_block.conv1.in_channels = ic ∧
      conv_block.conv1.out_channels = inner ∧
      conv_block.conv1.stride = st ∧
      conv_block.conv2.in_channels = inner ∧
      conv_block.conv2.out_channels = oc ∧
      conv_block.conv2.stride = 1 ∧
      ShortCut.out_channels ic sc = oc := by
  obtain ⟨sc, hsc, hout⟩ := shortcut_init_ok ic oc 1 st
  refine ⟨_, sc, rfl, hsc, ?_, rfl, rfl, rfl, rfl, rfl, rfl, by simpa using hout⟩
  simp only [PruneBasicBlock.init, PruneBasicBlock.expansion,
    PruneBasicConv.init, hsc]
  rfl

/-- Claim C7: in every block constructor of blocks.py, each BatchNorm2d is
created with num_features equal to the out_channels of the convolution whose
output it normalizes, for all constructor arguments; composite blocks create
their batch norms only through the leaf constructors checked here. -/
theorem C7_batchnorm_channel_consistency (ic oc e g bw st ip p inner : Nat) :
    (ShortCut.init ic oc e st).map ShortCut.bn_matches_conv = Except.ok true ∧
    (BottleConv.init ic oc e g bw st).map BottleConv.bn_matches_conv =
      Except.ok true ∧
    (BasicConv.init ic oc g bw st).map BasicConv.bn_matches_conv =
      Except.ok true ∧
    (SmallInputInitialBlock.init ip).map SmallInputInitialBlock.bn_matches_conv =
      Except.ok true ∧
    (InitialBlock.init ip).map InitialBlock.bn_matches_conv = Except.ok true ∧
    (PruneBasicConv.init ic p inner st).map PruneBasicConv.bn_matches_conv =
      Except.ok true := by
  refine ⟨?_, ?_, ?_, ?_, ?_, ?_⟩
  · unfold ShortCut.init
    split
    · simp [pyMap_ok, ShortCut.bn_matches_conv]
    · simp [pyMap_ok, ShortCut.bn_matches_conv]
  · simp [BottleConv.init, pyMap_ok, BottleConv.bn_matches_conv]
  · simp [BasicConv.init, pyMap_ok, BasicConv.bn_matches_conv]
  · simp [SmallInputInitialBlock.init, pyMap_ok,
      SmallInputInitialBlock.bn_matches_conv]
  · simp [InitialBlock.init, pyMap_ok, InitialBlock.bn_matches_conv]
  · simp [PruneBasicConv.init, pyMap_ok, PruneBasicConv.bn_matches_conv]

/-- Claim C8: no constructor or module-level code of the embedded fragment
raises an exception of its own: for every argument values, every block
constructor completes successfully and the quant package import selects one
of the two framework operator sets. -/
theorem C8_no_own_raise (ic oc e g bw st ip inner : Nat) (is_tf : Bool) :
    pyOk (ShortCut.init ic oc e st) = true ∧
    pyOk (BottleConv.init ic oc e g bw st) = true ∧
    pyOk (BasicConv.init ic oc g bw st) = true ∧
    pyOk (SmallInputInitialBlock.init ip) = true ∧
    pyOk (InitialBlock.init ip) = true ∧
    pyOk (BasicBlock.init ic oc g bw st) = true ∧
    pyOk (BottleneckBlock.init ic oc g bw st) = true ∧
    pyOk (PruneBasicBlock.init ic oc inner st) = true ∧
    pyOk (PruneBasicConv.init ic oc inner st) = true ∧
    (quant_module_import is_tf = QuantOps.tensorflow_quant ∨
      quant_module_import is_tf = QuantOps.pytroch_quant) := by
  obtain ⟨sc1, hsc1, -⟩ := shortcut_init_ok ic oc 1 st
  obtain ⟨sc4, hsc4, -⟩ := shortcut_init_ok ic oc 4 st
  obtain ⟨sce, hsce, -⟩ := shortcut_init_ok ic oc e st
  refine ⟨by rw [hsce]; rfl, rfl, rfl, rfl, rfl, ?_, ?_, ?_, rfl, ?_⟩
  · simp only [BasicBlock.init, BasicBlock.expansion, BasicConv.init,
      hsc1, pyBind_ok, pyPure_eq]
    rfl
  · simp only [BottleneckBlock.init, BottleneckBlock.expansion,
      BottleConv.init, hsc4, pyBind_ok, pyPure_eq]
    rfl
  · simp only [PruneBasicBlock.init, PruneBasicBlock.expansion,
      PruneBasicConv.init, hsc1, pyBind_ok, pyPure_eq]
    rfl
  · cases is_tf
    · exact Or.inr rfl
    · exact Or.inl rfl

/-- Claim C9: both initial blocks hard-code a 3-channel input for every
init_plane; InitialBlock always downsamples with a 7x7 stride-2 convolution
followed by a 3x3 stride-2 max pool, while SmallInputInitialBlock uses a 3x3
stride-1 padding-1 convolution and creates no pooling layer (its record type
has no pooling field). -/
theorem C9_initial_blocks_input_channels (ip : Nat) :
    (SmallInputInitialBlock.init ip).map SmallInputInitialBlock.conv =
      Except.ok { in_channels := 3, out_channels := ip, kernel_size := 3,
                  stride := 1, padding := 1, groups := 1, bias := false } ∧
    (SmallInputInitialBlock.init ip).map SmallInputInitialBlock.bn =
      Except.ok { num_features := ip } ∧
    (InitialBlock.init ip).map InitialBlock.conv =
      Except.ok { in_channels := 3, out_channels := ip, kernel_size := 7,
                  stride := 2, padding := 3, groups := 1, bias := false } ∧
    (InitialBlock.init ip).map InitialBlock.maxpool2d =
      Except.ok { kernel_size := 3, stride := 2, padding := 1 } := by
  exact ⟨rfl, rfl, rfl, rfl⟩
